import Mathlib

/-!
Verification of the threaded-buffer drafts in `devel2013/`
(`IOBuffer.h`, `BufferThreadedP.h`, `BufferThreaded1.cpp`).

The development shallowly embeds the sequential semantics of the buffer
classes: each C++ object becomes a Lean structure holding the object's
mutable data members, and each member function becomes a pure function from
state to state (plus returned values).  Mutex-guarded regions of the source
execute atomically with respect to the interleavings modelled here, so every
lock/unlock pair collapses to one atomic state transformation; where lock
*discipline* itself is the property at stake, the worker loops are embedded a
second time as explicit instruction lists with an acquired-lock tracker.
Condition variables are modelled with explicit waiting/signal-pending flags:
`pthread_cond_signal` wakes a waiter only if one is currently blocked in
`pthread_cond_wait` (otherwise the signal is lost), and wakeups happen only
on a delivered signal.
-/

namespace Gofirst

/-! ## IOBuffer (IOBuffer.h) -/

namespace IOBuffer

/-- Mutable data members of `IOBuffer<InputPacket, OutputPacket, Interface>`
(IOBuffer.h lines 53-66): the cached input packet `ipkt`, the cached output
packet `opkt`, the freshness flags `idata_new` / `odata_new`, and the
updating flag `bUpdating`.  The mutexes and the thread handle carry no data
and are elided; each lock-guarded region below is one atomic step. -/
structure IOBufferState (I O : Type) where
  ipkt : I
  opkt : O
  idata_new : Bool
  odata_new : Bool
  bUpdating : Bool
deriving DecidableEq

variable {I O : Type}

/-- `IOBuffer::providePacket` (lines 153-161): under `idata_mtx`, move the
argument into `ipkt` and set `idata_new = true`; then signal `newipt`.
(The signal is modelled in the worker's enabledness on `idata_new`.) -/
def providePacket (s : IOBufferState I O) (input : I) : IOBufferState I O :=
  { s with ipkt := input, idata_new := true }

/-- `IOBuffer::getPacket` (lines 168-185): under `odata_mtx`, if `odata_new`
move `opkt` to the caller-provided location and clear `odata_new`, returning
`true`; otherwise return `false`, leaving the state and the caller's
location unchanged.  The result is (new state, contents of the caller's
location, return value); `output` is the location's previous contents.
Moved-from `opkt` keeps its value in the model, which is unobservable since
`odata_new` is cleared and the worker overwrites `opkt` before setting it. -/
def getPacket (s : IOBufferState I O) (output : O) : IOBufferState I O × O × Bool :=
  if s.odata_new then
    ({ s with odata_new := false }, s.opkt, true)
  else
    (s, output, false)

/-- The input-consumption block of `IOBuffer::tmContinuous` (lines 213-219):
once `idata_new` holds, move `ipkt` into the thread-local `ipkl` and clear
`idata_new`.  Returns (new state, consumed input). -/
def consumeInput (s : IOBufferState I O) : IOBufferState I O × I :=
  ({ s with idata_new := false }, s.ipkt)

/-- The output-publication block of `IOBuffer::tmContinuous` (lines 223-227):
under `odata_mtx`, move the produced value into `opkt` and set
`odata_new = true`. -/
def publishOutput (s : IOBufferState I O) (v : O) : IOBufferState I O :=
  { s with opkt := v, odata_new := true }

/-- One iteration of the `IOBuffer::tmContinuous` worker loop (lines
209-232): wait until `idata_new` (modelled as a no-op step while it is
false), consume the input, run `source->runProcess` on it outside the
locks, and publish the result to the output slot. -/
def tmContinuousIter (runProcess : I → O) (s : IOBufferState I O) : IOBufferState I O :=
  if s.idata_new then
    let c := consumeInput s
    publishOutput c.1 (runProcess c.2)
  else s

/-- The start of `IOBuffer::tmContinuous` (lines 202-207): under `upfl_mtx`,
set the member `bUpdating` to true before entering the loop. -/
def tmContinuousStart (s : IOBufferState I O) : IOBufferState I O :=
  { s with bUpdating := true }

/-- `IOBuffer::isUpdating` (lines 111-126): read `bUpdating` under
`upfl_mtx`. -/
def isUpdating (s : IOBufferState I O) : Bool :=
  s.bUpdating

end IOBuffer

/-! ### Pipeline trace system (IOBuffer)

Interleavings of external callers and the continuous worker, with a ghost
log of every input ever provided. -/

namespace IOBuffer

/-- External events on an `IOBuffer`: a caller's `providePacket`, one worker
iteration of `tmContinuous`, and a caller's `getPacket` (with the previous
contents of the caller's output location). -/
inductive PipeEvent (I O : Type) where
  | provide (v : I)
  | work
  | getPkt (out : O)

/-- An `IOBuffer` state together with the ghost list of all inputs ever
passed to `providePacket` (most recent first). -/
structure PipeSys (I O : Type) where
  st : IOBufferState I O
  provided : List I

variable {I O : Type}

/-- One event of the pipeline trace system. -/
def pipeStep (f : I → O) (s : PipeSys I O) : PipeEvent I O → PipeSys I O
  | .provide v => { st := providePacket s.st v, provided := v :: s.provided }
  | .work => { s with st := tmContinuousIter f s.st }
  | .getPkt out => { s with st := (getPacket s.st out).1 }

/-- Run a trace of pipeline events. -/
def pipeRun (f : I → O) (s : PipeSys I O) (evs : List (PipeEvent I O)) : PipeSys I O :=
  evs.foldl (pipeStep f) s

/-- Invariant of the pipeline system: an unconsumed input was provided, and
a fresh output is the transform of some provided input. -/
def PipeInv (f : I → O) (s : PipeSys I O) : Prop :=
  (s.st.idata_new = true → s.st.ipkt ∈ s.provided) ∧
  (s.st.odata_new = true → ∃ v, v ∈ s.provided ∧ s.st.opkt = f v)

end IOBuffer

/-! ## BufferThread (BufferThreadedP.h) and BufferThreaded (BufferThreaded1.cpp)

`BufferThread<Packet, Interface>` and the concrete `BufferThreaded` share the
same trigger/worker structure (`readData`, `isUpdating`, `threadMeth`); one
model covers both.  Condition-variable semantics: `pthread_cond_signal`
(`readData`, line 154) wakes the worker only if it is currently blocked in
`pthread_cond_wait` (`threadMeth`, line 169); a signal sent while nobody
waits is lost.  Wakeups occur only on a delivered signal. -/

namespace BufferThread

/-- Mutable data members of `BufferThread` (BufferThreadedP.h lines 34-42)
plus the condition-variable bookkeeping and a ghost counter:
`workerWaiting` — the worker thread is blocked in
`pthread_cond_wait(&read_cond, &upfl_mtx)`; `sigPending` — a signal was
delivered to the waiting worker and its wakeup has not yet happened;
`prods` — ghost count of completed production cycles. -/
structure BufferThreadState (P : Type) where
  bUpdating : Bool
  pkt : P
  workerWaiting : Bool
  sigPending : Bool
  prods : Nat
deriving DecidableEq

variable {P : Type}

/-- The `BufferThread` constructor (lines 45-54): `bUpdating = false`; the
packet member is default-constructed (passed as `p0`); the worker thread is
not yet running, so it is not waiting and no signal is pending. -/
def btInit (p0 : P) : BufferThreadState P :=
  { bUpdating := false, pkt := p0, workerWaiting := false, sigPending := false,
    prods := 0 }

/-- `BufferThread::readData` (lines 145-156), identical in structure to
`BufferThreaded::readData` (BufferThreaded1.cpp lines 163-174): under
`upfl_mtx`, if `bUpdating` return without doing anything; otherwise set
`bUpdating = true`, unlock, and signal `read_cond`.  The C++ function
returns `void`; the `Bool` component records the observable effect — whether
an update was initiated (i.e. whether `pthread_cond_signal` was called).
The signal reaches the worker only if it is currently waiting. -/
def readData (s : BufferThreadState P) : BufferThreadState P × Bool :=
  if s.bUpdating then
    (s, false)
  else
    ({ s with bUpdating := true, sigPending := s.sigPending || s.workerWaiting },
     true)

/-- `BufferThread::isUpdating` (lines 128-143): read `bUpdating` under
`upfl_mtx`. -/
def isUpdating (s : BufferThreadState P) : Bool :=
  s.bUpdating

/-- `BufferThread::getPacket` (lines 117-126): under `data_mtx`, copy `pkt`
into the local `pkl` and return it.  No member is written. -/
def getPacket (s : BufferThreadState P) : BufferThreadState P × P :=
  let pkl := s.pkt
  (s, pkl)

/-- The start of `BufferThread::tmContinuous` (lines 224-231): under
`upfl_mtx` the code writes `bUpl = true` — the thread-local flag declared at
line 226 — and never writes the member `bUpdating`.  The returned `Bool` is
that local `bUpl`; the member state is unchanged.  (The adjacent comment
says the flag "just stays true", and `runContinuous`'s documentation says
`isUpdating()` will always return true once the thread has started.) -/
def tmContinuousStart (s : BufferThreadState P) : BufferThreadState P × Bool :=
  (s, true)

/-- Interleaving events for the trigger/worker pair: a caller's `readData`;
the worker reaching `pthread_cond_wait` (`block`); the worker waking from a
delivered signal and running one iteration of the `threadMeth` body
(`wake`). -/
inductive WEvent where
  | readData
  | block
  | wake
deriving DecidableEq

/-- One event of the trigger/worker system.  `produce` is the external
producer (`source->getPacket()` in `BufferThread::threadMeth` line 182 /
`readFromSensor` in `BufferThreaded::threadMeth` line 219), indexed by the
ghost cycle counter.  On `wake` the worker reads `bUpdating` into the local
`bUpl` (lines 168-174); if it is set, it produces, stores the packet under
`data_mtx`, and clears `bUpdating` under `upfl_mtx` (lines 176-206). -/
def step (produce : Nat → P) (s : BufferThreadState P) : WEvent → BufferThreadState P
  | .readData => (readData s).1
  | .block => if s.workerWaiting then s else { s with workerWaiting := true }
  | .wake =>
      if s.workerWaiting && s.sigPending then
        if s.bUpdating then
          { s with workerWaiting := false, sigPending := false,
                   pkt := produce s.prods, bUpdating := false,
                   prods := s.prods + 1 }
        else
          { s with workerWaiting := false, sigPending := false }
      else s

/-- Run a trace of trigger/worker events. -/
def run (produce : Nat → P) (s : BufferThreadState P) (evs : List WEvent) :
    BufferThreadState P :=
  evs.foldl (step produce) s

/-- Invariant of the stuck configuration behind the lost-wakeup scenario:
the flag is set, no signal is pending, and the production counter is
frozen. -/
def LostInv (c : Nat) (s : BufferThreadState P) : Prop :=
  s.bUpdating = true ∧ s.sigPending = false ∧ s.prods = c

end BufferThread

/-! ## BufferThreaded's raw data buffer (BufferThreaded1.cpp)

`BufferThreaded` keeps its payload in a raw `int* data` with an element
count `numItems`.  The pointer is modelled as `Option (List Int)`: `none`
means no valid allocation is reachable through it (`NULL`, or an
uninitialized pointer member); reads and writes through `none`, and
out-of-bounds accesses, are undefined behavior and surface as `none` in the
operation's `Option` result. -/

namespace BufferThreaded

/-- Mutable data members of `BufferThreaded` (BufferThreaded1.cpp lines
33-41): `bUpdating`, the raw buffer `data`, its element count `numItems`,
and the timestamp `tStamp` (modelled as one integer). -/
structure ThreadedState where
  bUpdating : Bool
  data : Option (List Int)
  numItems : Nat
  tStamp : Int
deriving DecidableEq

/-- Read `m[i]` through a raw pointer: undefined (`none`) if the pointer has
no allocation behind it or the index is out of bounds. -/
def readAt (m : Option (List Int)) (i : Nat) : Option Int :=
  match m with
  | none => none
  | some l => l.get? i

/-- Write `m[i] = v` through a raw pointer: undefined (`none`) if the
pointer has no allocation behind it or the index is out of bounds;
otherwise the updated allocation. -/
def writeAt (m : Option (List Int)) (i : Nat) (v : Int) : Option (Option (List Int)) :=
  match m with
  | none => none
  | some l => if i < l.length then some (some (l.set i v)) else none

/-- The element-copy loop `for (i = 0; i < n; i++) dst[i] = src[i]`
(as in the copy constructor, lines 81-83), unrolled from the last
iteration.  `none` if any iteration reads or writes invalid memory. -/
def copyWrites (dst src : Option (List Int)) : Nat → Option (Option (List Int))
  | 0 => some dst
  | k + 1 => do
      let d ← copyWrites dst src k
      let v ← readAt src k
      writeAt d k v

/-- The read-out loop of `getData` (lines 130-133):
`out[i] = data[i]` for `i < n`, building the freshly allocated output
array.  `none` if any read is undefined. -/
def copyOut (m : Option (List Int)) : Nat → Option (List Int)
  | 0 => some []
  | k + 1 => do
      let pre ← copyOut m k
      let v ← readAt m k
      pure (pre ++ [v])

/-- `BufferThreaded::getData` (lines 125-136): under `data_mtx`, allocate a
fresh array of `numItems` ints, copy `data[0..numItems)` into it, and
return `numItems`.  Result: (unchanged state, contents of the fresh array
or `none` on undefined reads, return value). -/
def getData (s : ThreadedState) : ThreadedState × Option (List Int) × Nat :=
  (s, copyOut s.data s.numItems, s.numItems)

/-- The `BufferThreaded` copy constructor (lines 77-94): under
`other.data_mtx`, copy `numItems`, run the element-copy loop
`data[i] = other.data[i]`, and copy `tStamp`; then initialize fresh
mutexes and the condition variable (carry no data here) and set
`bUpdating = false`.  The constructor never allocates the new object's
`data` member before the loop writes through it, so the destination pointer
is uninitialized (`none`); `none` overall marks the undefined behavior. -/
def copyCtor (other : ThreadedState) : Option ThreadedState :=
  match copyWrites none other.data other.numItems with
  | none => none
  | some d =>
      some { bUpdating := false, data := d, numItems := other.numItems,
             tStamp := other.tStamp }

end BufferThreaded

/-! ## Lock discipline of the worker loops

A second embedding of the worker-loop bodies, as straight-line instruction
lists with the set of held mutexes tracked explicitly, to settle where the
external producer/transform call happens relative to the locks.
`pthread_cond_wait` releases its mutex while blocked and reacquires it
before returning, so it is split into a release step and a reacquire
step. -/

namespace Locks

/-- The lockable objects appearing in the worker loops.  `ipktObj` is the
object `IOBuffer::tmContinuous` actually passes to `pthread_mutex_lock` at
line 213: the member `ipkt` itself rather than `idata_mtx` (the
input-wait path locks the payload object, not its mutex). -/
inductive Lk where
  | upfl
  | data
  | odata
  | ipktObj
deriving DecidableEq, BEq

/-- One instruction of a worker-loop body, as far as lock tracking is
concerned: acquire/release a lock, the two halves of a condition-variable
wait, the external producer/transform invocation, or an internal memory
operation. -/
inductive Instr where
  | lock (l : Lk)
  | unlock (l : Lk)
  | waitEnter (l : Lk)
  | waitExit (l : Lk)
  | extCall
  | mem
deriving DecidableEq

/-- Effect of one instruction on the list of held locks. -/
def updHeld (h : List Lk) : Instr → List Lk
  | .lock l => l :: h
  | .unlock l => h.erase l
  | .waitEnter l => h.erase l
  | .waitExit l => l :: h
  | .extCall => h
  | .mem => h

/-- The lists of locks held at each `extCall` of an instruction sequence,
in order. -/
def heldAtExts (h : List Lk) : List Instr → List (List Lk)
  | [] => []
  | i :: rest =>
      match i with
      | .extCall => h :: heldAtExts h rest
      | _ => heldAtExts (updHeld h i) rest

/-- One iteration of `BufferThread::threadMeth` (BufferThreadedP.h lines
164-210), update path: lock `upfl_mtx`; wait on `read_cond` (releasing and
reacquiring `upfl_mtx`); read `bUpdating`; unlock; call
`source->getPacket()` (line 182); store `pkt` under `data_mtx`; clear
`bUpdating` under `upfl_mtx`. -/
def threadMethCycle : List Instr :=
  [.lock .upfl, .waitEnter .upfl, .waitExit .upfl, .mem, .unlock .upfl,
   .extCall,
   .lock .data, .mem, .unlock .data,
   .lock .upfl, .mem, .unlock .upfl]

/-- One iteration of `BufferThread::tmContinuous` (BufferThreadedP.h lines
224-259): call `source->getPacket()` (line 236); store `pkt` under
`data_mtx`; `sleep(0)`. -/
def tmContinuousCycle : List Instr :=
  [.extCall, .lock .data, .mem, .unlock .data, .mem]

/-- One iteration of `BufferThreaded::threadMeth` (BufferThreaded1.cpp
lines 182-234), update path: lock `upfl_mtx`; wait on `read_cond`; read
`bUpdating`; unlock; `sleep(5)` and `gettimeofday` (lines 202-204); then,
with `data_mtx` held, `delete[] data`, `numItems = readFromSensor(&data)`
(line 219) and `tStamp = tStampl`; finally clear `bUpdating` under
`upfl_mtx`. -/
def bufferThreadedCycle : List Instr :=
  [.lock .upfl, .waitEnter .upfl, .waitExit .upfl, .mem, .unlock .upfl,
   .mem, .mem,
   .lock .data, .mem, .extCall, .mem, .unlock .data,
   .lock .upfl, .mem, .unlock .upfl]

/-- One iteration of `IOBuffer::tmContinuous` (IOBuffer.h lines 209-232):
lock the input-wait object (`&ipkt`, line 213); wait on `newipt`; move
`ipkt` out and clear `idata_new`; unlock; call `source->runProcess(ipkl)`
(line 221); publish under `odata_mtx`. -/
def ioTmContinuousCycle : List Instr :=
  [.lock .ipktObj, .waitEnter .ipktObj, .waitExit .ipktObj, .mem, .mem,
   .unlock .ipktObj,
   .extCall,
   .lock .odata, .mem, .mem, .unlock .odata]

end Locks

/-! ## Helper lemmas -/

theorem IOBuffer.pipeInv_step {I O : Type} (f : I → O) (s : IOBuffer.PipeSys I O)
    (e : IOBuffer.PipeEvent I O) (h : IOBuffer.PipeInv f s) :
    IOBuffer.PipeInv f (IOBuffer.pipeStep f s e) := by
  obtain ⟨hi, ho⟩ := h
  cases e with
  | provide v =>
      refine ⟨fun _ => ?_, fun hn => ?_⟩
      · simp [IOBuffer.pipeStep, IOBuffer.providePacket]
      · simp only [IOBuffer.pipeStep, IOBuffer.providePacket] at hn ⊢
        obtain ⟨w, hw, he⟩ := ho hn
        exact ⟨w, List.mem_cons_of_mem _ hw, he⟩
  | work =>
      by_cases hid : s.st.idata_new = true
      · refine ⟨fun hn => ?_, fun _ => ?_⟩
        · simp [IOBuffer.pipeStep, IOBuffer.tmContinuousIter, hid,
            IOBuffer.consumeInput, IOBuffer.publishOutput] at hn
        · simp only [IOBuffer.pipeStep, IOBuffer.tmContinuousIter, hid, if_true,
            IOBuffer.consumeInput, IOBuffer.publishOutput]
          exact ⟨s.st.ipkt, hi hid, rfl⟩
      · simp only [IOBuffer.pipeStep, IOBuffer.tmContinuousIter, hid, if_false]
        exact ⟨fun hn => hi hn, fun hn => ho hn⟩
  | getPkt out =>
      by_cases hod : s.st.odata_new = true
      · refine ⟨fun hn => ?_, fun hn => ?_⟩
        · simp only [IOBuffer.pipeStep, IOBuffer.getPacket, hod, if_true] at hn ⊢
          exact hi hn
        · simp [IOBuffer.pipeStep, IOBuffer.getPacket, hod] at hn
      · simp only [IOBuffer.pipeStep, IOBuffer.getPacket, hod, if_false]
        exact ⟨fun hn => hi hn, fun hn => ho hn⟩

theorem IOBuffer.pipeInv_run {I O : Type} (f : I → O) (s : IOBuffer.PipeSys I O)
    (evs : List (IOBuffer.PipeEvent I O)) (h : IOBuffer.PipeInv f s) :
    IOBuffer.PipeInv f (IOBuffer.pipeRun f s evs) := by
  induction evs generalizing s with
  | nil => exact h
  | cons e evs ih => exact ih _ (IOBuffer.pipeInv_step f s e h)

theorem BufferThread.lostInv_step {P : Type} (produce : Nat → P) (c : Nat)
    (s : BufferThread.BufferThreadState P) (e : BufferThread.WEvent)
    (h : BufferThread.LostInv c s) :
    BufferThread.LostInv c (BufferThread.step produce s e) := by
  obtain ⟨hb, hs, hp⟩ := h
  cases e with
  | readData =>
      simp [BufferThread.LostInv, BufferThread.step, BufferThread.readData, hb, hs, hp]
  | block =>
      by_cases hw : s.workerWaiting <;>
        simp [BufferThread.LostInv, BufferThread.step, hw, hb, hs, hp]
  | wake => simp [BufferThread.LostInv, BufferThread.step, hs, hb, hp]

theorem BufferThread.lostInv_run {P : Type} (produce : Nat → P) (c : Nat)
    (s : BufferThread.BufferThreadState P) (evs : List BufferThread.WEvent)
    (h : BufferThread.LostInv c s) :
    BufferThread.LostInv c (BufferThread.run produce s evs) := by
  induction evs generalizing s with
  | nil => exact h
  | cons e evs ih => exact ih _ (BufferThread.lostInv_step produce c s e h)

theorem BufferThreaded.copyOut_some (l : List Int) (n : Nat) (h : n ≤ l.length) :
    BufferThreaded.copyOut (some l) n = some (l.take n) := by
  induction n with
  | zero => simp [BufferThreaded.copyOut]
  | succ k ih =>
      have hk : k ≤ l.length := Nat.le_of_succ_le h
      have hklt : k < l.length := h
      have hget : l[k]? = some (l.get ⟨k, hklt⟩) := List.getElem?_eq_getElem hklt
      rw [BufferThreaded.copyOut, ih hk]
      simp only [BufferThreaded.readAt, List.get?_eq_getElem?, hget,
        Option.bind_eq_bind, Option.some_bind, List.take_succ,
        List.get_eq_getElem, Option.toList_some]
      rfl

/-! ## Claim theorems -/

/-- **C1** — Latest-wins on the mailbox: for every nonempty sequence of
publishes with no interleaved consume, the subsequent consume yields exactly
the last value published and reports success.  Both instances of the claim:
the worker publishing `v1, …, vn` into the output slot followed by
`IOBuffer::getPacket`, and callers providing `w1, …, wm` via
`IOBuffer::providePacket` followed by the worker's input consumption. -/
theorem c1_latest_wins {I O : Type} (s : IOBuffer.IOBufferState I O)
    (vs : List O) (ws : List I) (out : O) (hv : vs ≠ []) (hw : ws ≠ []) :
    (IOBuffer.getPacket (vs.foldl IOBuffer.publishOutput s) out).2.1 = vs.getLast hv ∧
    (IOBuffer.getPacket (vs.foldl IOBuffer.publishOutput s) out).2.2 = true ∧
    (IOBuffer.consumeInput (ws.foldl IOBuffer.providePacket s)).2 = ws.getLast hw := by
  rcases vs.eq_nil_or_concat with rfl | ⟨vs0, v, rfl⟩
  · exact absurd rfl hv
  rcases ws.eq_nil_or_concat with rfl | ⟨ws0, w, rfl⟩
  · exact absurd rfl hw
  refine ⟨?_, ?_, ?_⟩
  · simp [List.foldl_concat, List.getLast_concat, IOBuffer.publishOutput,
      IOBuffer.getPacket]
  · simp [List.foldl_concat, IOBuffer.publishOutput, IOBuffer.getPacket]
  · simp [List.foldl_concat, List.getLast_concat, IOBuffer.providePacket,
      IOBuffer.consumeInput]

/-- Witness for C1: after publishing 3 then 7 into the output slot,
`getPacket` yields 7 and reports success; after providing 2 then 5 on the
input side, the worker consumes 5. -/
theorem c1_latest_wins_witness :
    (IOBuffer.getPacket ([(3 : Nat), 7].foldl IOBuffer.publishOutput
        (⟨0, 0, false, false, false⟩ : IOBuffer.IOBufferState Nat Nat)) 0).2.1 = 7 ∧
    (IOBuffer.getPacket ([(3 : Nat), 7].foldl IOBuffer.publishOutput
        (⟨0, 0, false, false, false⟩ : IOBuffer.IOBufferState Nat Nat)) 0).2.2 = true ∧
    (IOBuffer.consumeInput ([(2 : Nat), 5].foldl IOBuffer.providePacket
        (⟨0, 0, false, false, false⟩ : IOBuffer.IOBufferState Nat Nat))).2 = 5 := by
  have h := c1_latest_wins
      (⟨0, 0, false, false, false⟩ : IOBuffer.IOBufferState Nat Nat)
      [3, 7] [2, 5] 0 (by decide) (by decide)
  exact ⟨h.1, h.2.1, h.2.2⟩

/-- **C3** — `tryConsume` semantics of `IOBuffer::getPacket`: on a fresh
slot it returns the stored value, transfers it out and clears `odata_new`,
so an immediately repeated call with no intervening publish returns nothing;
on a stale slot it returns `false` and leaves both the slot state and the
caller-provided output location unchanged.  (It never blocks: it is a total
function of the slot state.) -/
theorem c3_tryConsume_semantics {I O : Type} (s : IOBuffer.IOBufferState I O)
    (o1 o2 : O) :
    (s.odata_new = true →
      IOBuffer.getPacket s o1 = ({ s with odata_new := false }, s.opkt, true) ∧
      IOBuffer.getPacket (IOBuffer.getPacket s o1).1 o2 =
        ((IOBuffer.getPacket s o1).1, o2, false)) ∧
    (s.odata_new = false → IOBuffer.getPacket s o1 = (s, o1, false)) := by
  refine ⟨fun h => ⟨?_, ?_⟩, fun h => ?_⟩
  · simp [IOBuffer.getPacket, h]
  · simp [IOBuffer.getPacket, h]
  · simp [IOBuffer.getPacket, h]

/-- Witness for C3: on a concrete fresh slot `getPacket` hands out the
stored 7 and clears the flag; on the resulting stale slot it returns
`false` and leaves the caller's location (holding 1) untouched. -/
theorem c3_tryConsume_witness :
    IOBuffer.getPacket (⟨0, 7, false, true, false⟩ :
        IOBuffer.IOBufferState Nat Nat) 1 =
      (⟨0, 7, false, false, false⟩, 7, true) ∧
    IOBuffer.getPacket (⟨0, 7, false, false, false⟩ :
        IOBuffer.IOBufferState Nat Nat) 1 =
      (⟨0, 7, false, false, false⟩, 1, false) := by
  have hf := c3_tryConsume_semantics
      (⟨0, 7, false, true, false⟩ : IOBuffer.IOBufferState Nat Nat) 1 2
  have hs := c3_tryConsume_semantics
      (⟨0, 7, false, false, false⟩ : IOBuffer.IOBufferState Nat Nat) 1 2
  exact ⟨(hf.1 rfl).1, hs.2 rfl⟩

/-- **C2** — Coalescing invariant of the trigger: a `readData` issued while
`bUpdating` is true leaves the entire state unchanged (never queued), does
not signal (the `Bool` effect is `false`), and causes no production cycle:
a burst of such calls leaves the system fixed, and prefixing any future
trace with the coalesced call changes nothing — the first update completes
(a `wake` clearing `bUpdating`) before any second cycle can be initiated. -/
theorem c2_coalescing {P : Type} (produce : Nat → P)
    (s : BufferThread.BufferThreadState P) (h : s.bUpdating = true) :
    (BufferThread.readData s).1 = s ∧
    (BufferThread.readData s).2 = false ∧
    (∀ evs : List BufferThread.WEvent,
      (∀ e ∈ evs, e = BufferThread.WEvent.readData) →
      BufferThread.run produce s evs = s) ∧
    (∀ evs : List BufferThread.WEvent,
      BufferThread.run produce s (BufferThread.WEvent.readData :: evs) =
        BufferThread.run produce s evs) := by
  have h1 : BufferThread.readData s = (s, false) := by
    simp [BufferThread.readData, h]
  have hstep : BufferThread.step produce s BufferThread.WEvent.readData = s := by
    simp [BufferThread.step, h1]
  refine ⟨by rw [h1], by rw [h1], ?_, ?_⟩
  · intro evs
    induction evs with
    | nil => intro _; rfl
    | cons e evs ih =>
        intro hall
        have he := hall e (List.mem_cons_self _ _)
        subst he
        have hrest := ih fun e hm => hall e (List.mem_cons_of_mem _ hm)
        simpa [BufferThread.run, hstep] using hrest
  · intro evs
    simp [BufferThread.run, hstep]

/-- Witness for C2: with the flag set, a concrete `readData` is the
identity and reports no initiated update, and two back-to-back coalesced
requests leave the system exactly where it was. -/
theorem c2_coalescing_witness :
    (BufferThread.readData (⟨true, 0, false, false, 0⟩ :
        BufferThread.BufferThreadState Nat)).1 = ⟨true, 0, false, false, 0⟩ ∧
    (BufferThread.readData (⟨true, 0, false, false, 0⟩ :
        BufferThread.BufferThreadState Nat)).2 = false ∧
    BufferThread.run (fun _ => 0) ⟨true, 0, false, false, 0⟩
        [BufferThread.WEvent.readData, BufferThread.WEvent.readData] =
      ⟨true, 0, false, false, 0⟩ := by
  have h := c2_coalescing (fun _ => (0 : Nat)) ⟨true, 0, false, false, 0⟩ rfl
  exact ⟨h.1, h.2.1, h.2.2.1 _ (by decide)⟩

/-- **C4** — Pipeline correctness of `IOBuffer::tmContinuous`: the worker
makes no step while no input is fresh (its only blocking point); with a
fresh input it consumes it, applies `runProcess` to the consumed input, and
publishes the result to the output slot; `runProcess` runs with no lock
held (the lock-tracking embedding of the loop); consequently every value a
`getPacket` successfully returns after any caller/worker interleaving from
a quiescent start is `runProcess` of some previously provided input; and
when two inputs are provided before the worker consumes either, the worker
processes only the newer one (latest-wins, no input queuing). -/
theorem c4_pipeline {I O : Type} (f : I → O) (s : IOBuffer.IOBufferState I O)
    (v1 v2 : I) (out : O) (s0 : IOBuffer.IOBufferState I O)
    (h0i : s0.idata_new = false) (h0o : s0.odata_new = false)
    (evs : List (IOBuffer.PipeEvent I O)) :
    (s.idata_new = false → IOBuffer.tmContinuousIter f s = s) ∧
    (s.idata_new = true →
      IOBuffer.tmContinuousIter f s =
        { s with idata_new := false, opkt := f s.ipkt, odata_new := true }) ∧
    (IOBuffer.tmContinuousIter f
        (IOBuffer.providePacket (IOBuffer.providePacket s v1) v2)).opkt = f v2 ∧
    Locks.heldAtExts [] Locks.ioTmContinuousCycle = [[]] ∧
    ((IOBuffer.getPacket (IOBuffer.pipeRun f ⟨s0, []⟩ evs).st out).2.2 = true →
      ∃ v, v ∈ (IOBuffer.pipeRun f ⟨s0, []⟩ evs).provided ∧
        (IOBuffer.getPacket (IOBuffer.pipeRun f ⟨s0, []⟩ evs).st out).2.1 = f v) := by
  refine ⟨fun h => ?_, fun h => ?_, ?_, by decide, fun hret => ?_⟩
  · simp [IOBuffer.tmContinuousIter, h]
  · simp [IOBuffer.tmContinuousIter, h, IOBuffer.consumeInput, IOBuffer.publishOutput]
  · simp [IOBuffer.tmContinuousIter, IOBuffer.providePacket,
      IOBuffer.consumeInput, IOBuffer.publishOutput]
  · have hinv0 : IOBuffer.PipeInv f ⟨s0, []⟩ := by
      refine ⟨fun hc => ?_, fun hc => ?_⟩
      · rw [h0i] at hc; cases hc
      · rw [h0o] at hc; cases hc
    have hinv := IOBuffer.pipeInv_run f ⟨s0, []⟩ evs hinv0
    by_cases hod : (IOBuffer.pipeRun f ⟨s0, []⟩ evs).st.odata_new = true
    · obtain ⟨v, hm, he⟩ := hinv.2 hod
      exact ⟨v, hm, by simp [IOBuffer.getPacket, hod, he]⟩
    · simp [IOBuffer.getPacket, hod] at hret

/-- Witness for C4: with transform `2 * n`, providing 5 then 9 before the
worker runs makes its next iteration publish `2 * 9 = 18` (latest-wins);
with no fresh input the iteration is a no-op. -/
theorem c4_pipeline_witness :
    (IOBuffer.tmContinuousIter (fun n : Nat => 2 * n)
        (IOBuffer.providePacket (IOBuffer.providePacket
          (⟨0, 0, false, false, false⟩ : IOBuffer.IOBufferState Nat Nat) 5) 9)).opkt
      = 18 ∧
    IOBuffer.tmContinuousIter (fun n : Nat => 2 * n)
        (⟨0, 0, false, false, false⟩ : IOBuffer.IOBufferState Nat Nat) =
      ⟨0, 0, false, false, false⟩ := by
  have h := c4_pipeline (fun n : Nat => 2 * n)
      (⟨0, 0, false, false, false⟩ : IOBuffer.IOBufferState Nat Nat) 5 9 0
      ⟨0, 0, false, false, false⟩ rfl rfl []
  exact ⟨h.2.2.1, h.1 rfl⟩

/-- **C10** — Lost-wakeup edge case: from any state in which the worker is
not yet blocked in `pthread_cond_wait` and no update is in progress (for
example before `spawnThreads()` or before the worker first reaches the
wait), `readData` sets the flag and signals into the void: the signal is
lost, and because `threadMeth` waits unconditionally before checking the
flag (no pending-predicate loop around the wait), no production cycle ever
runs for the request under any subsequent trace — `bUpdating` stays true,
`isUpdating()` reports true indefinitely, and every later `readData` is a
coalesced no-op that initiates nothing. -/
theorem c10_lost_wakeup {P : Type} (produce : Nat → P)
    (s : BufferThread.BufferThreadState P) (hw : s.workerWaiting = false)
    (hs : s.sigPending = false) (hb : s.bUpdating = false)
    (evs : List BufferThread.WEvent) :
    (BufferThread.readData s).2 = true ∧
    (BufferThread.run produce (BufferThread.readData s).1 evs).bUpdating = true ∧
    BufferThread.isUpdating
        (BufferThread.run produce (BufferThread.readData s).1 evs) = true ∧
    (BufferThread.run produce (BufferThread.readData s).1 evs).prods = s.prods ∧
    (BufferThread.readData
        (BufferThread.run produce (BufferThread.readData s).1 evs)).1 =
      BufferThread.run produce (BufferThread.readData s).1 evs ∧
    (BufferThread.readData
        (BufferThread.run produce (BufferThread.readData s).1 evs)).2 = false := by
  have hinv : BufferThread.LostInv s.prods (BufferThread.readData s).1 := by
    refine ⟨?_, ?_, ?_⟩ <;> simp [BufferThread.readData, hb, hs, hw]
  obtain ⟨hb2, hs2, hp2⟩ := BufferThread.lostInv_run produce s.prods _ evs hinv
  have hnoop : ∀ t : BufferThread.BufferThreadState P, t.bUpdating = true →
      BufferThread.readData t = (t, false) := by
    intro t ht
    simp [BufferThread.readData, ht]
  refine ⟨by simp [BufferThread.readData, hb], hb2, ?_, hp2, ?_, ?_⟩
  · simpa [BufferThread.isUpdating] using hb2
  · rw [hnoop _ hb2]
  · rw [hnoop _ hb2]

/-- Witness for C10: a freshly constructed `BufferThread` receives
`readData` before the worker is waiting; after the worker blocks, a second
(coalesced) request arrives and a wakeup is attempted — no production runs
and the stage still reports updating. -/
theorem c10_lost_wakeup_witness :
    (BufferThread.run (fun _ => (0 : Nat))
        (BufferThread.readData (BufferThread.btInit 0)).1
        [BufferThread.WEvent.block, BufferThread.WEvent.readData,
         BufferThread.WEvent.wake]).prods = 0 ∧
    BufferThread.isUpdating
        (BufferThread.run (fun _ => (0 : Nat))
          (BufferThread.readData (BufferThread.btInit 0)).1
          [BufferThread.WEvent.block, BufferThread.WEvent.readData,
           BufferThread.WEvent.wake]) = true := by
  have h := c10_lost_wakeup (fun _ => (0 : Nat)) (BufferThread.btInit 0)
      rfl rfl rfl
      [BufferThread.WEvent.block, BufferThread.WEvent.readData,
       BufferThread.WEvent.wake]
  exact ⟨h.2.2.2.1, h.2.2.1⟩

/-- **C5** — Continuous-mode status (code bug): starting
`BufferThread::tmContinuous` writes the thread-local `bUpl` instead of the
member `bUpdating`, so on a freshly constructed `BufferThread` in
continuous mode `isUpdating()` returns `false` — against the claim, against
`runContinuous`'s documentation and against the adjacent comment; the start
leaves the member state entirely unchanged.  `IOBuffer::tmContinuous`, by
contrast, sets the member flag, so there `isUpdating()` does return
`true`. -/
theorem c5_continuous_flag_bug :
    BufferThread.isUpdating
        (BufferThread.tmContinuousStart (BufferThread.btInit (0 : Nat))).1 = false ∧
    (BufferThread.tmContinuousStart (BufferThread.btInit (0 : Nat))).1 =
      BufferThread.btInit 0 ∧
    IOBuffer.isUpdating
        (IOBuffer.tmContinuousStart
          (⟨0, 0, false, false, false⟩ : IOBuffer.IOBufferState Nat Nat)) = true := by
  exact ⟨rfl, rfl, rfl⟩

/-- **C6** — Lock discipline at the external call (code bug): the external
call is made with no lock held in `BufferThread::threadMeth`,
`BufferThread::tmContinuous` and `IOBuffer::tmContinuous`, but
`BufferThreaded::threadMeth` invokes its producer `readFromSensor` while
`data_mtx` is held (BufferThreaded1.cpp lines 216-221), against the claim
and against the comment directly above that critical section. -/
theorem c6_external_call_locks :
    Locks.heldAtExts [] Locks.threadMethCycle = [[]] ∧
    Locks.heldAtExts [] Locks.tmContinuousCycle = [[]] ∧
    Locks.heldAtExts [] Locks.ioTmContinuousCycle = [[]] ∧
    Locks.heldAtExts [] Locks.bufferThreadedCycle = [[Locks.Lk.data]] := by
  decide

/-- **C8** — peek is read-only: `BufferThread::getPacket` returns a copy of
the stored packet and leaves the buffer state (flags included) exactly as
it was; `BufferThreaded::getData` likewise leaves every member unchanged
and, when the buffer holds `numItems` valid items, hands out exactly those
items and returns their count. -/
theorem c8_peek_readonly {P : Type} (s : BufferThread.BufferThreadState P)
    (t : BufferThreaded.ThreadedState) (l : List Int)
    (hd : t.data = some l) (hn : t.numItems = l.length) :
    BufferThread.getPacket s = (s, s.pkt) ∧
    (BufferThreaded.getData t).1 = t ∧
    (BufferThreaded.getData t).2.1 = some l ∧
    (BufferThreaded.getData t).2.2 = t.numItems := by
  refine ⟨rfl, rfl, ?_, rfl⟩
  show BufferThreaded.copyOut t.data t.numItems = some l
  rw [hd, hn, BufferThreaded.copyOut_some l l.length le_rfl, List.take_length]

/-- Witness for C8: peeking a concrete `BufferThread` returns the stored
42 and the identical state; `getData` on a buffer holding `[1, 2]` returns
those two items and leaves the buffer untouched. -/
theorem c8_peek_readonly_witness :
    BufferThread.getPacket (⟨false, (42 : Nat), false, false, 0⟩ :
        BufferThread.BufferThreadState Nat) =
      (⟨false, 42, false, false, 0⟩, 42) ∧
    (BufferThreaded.getData ⟨false, some [1, 2], 2, 0⟩).1 =
      ⟨false, some [1, 2], 2, 0⟩ ∧
    (BufferThreaded.getData ⟨false, some [1, 2], 2, 0⟩).2.1 = some [1, 2] ∧
    (BufferThreaded.getData ⟨false, some [1, 2], 2, 0⟩).2.2 = 2 := by
  have h := c8_peek_readonly (⟨false, (42 : Nat), false, false, 0⟩ :
      BufferThread.BufferThreadState Nat) ⟨false, some [1, 2], 2, 0⟩ [1, 2] rfl rfl
  exact ⟨h.1, h.2.1, h.2.2.1, h.2.2.2⟩

/-- **C9** — Copy semantics (code bug): the `BufferThreaded` copy
constructor never allocates the new object's `data` buffer, so for a source
holding one item the copy loop's first write `data[0] = other.data[0]` goes
through an uninitialized pointer — undefined behavior, and the copy cannot
return the source's items.  Only for an empty source (`numItems = 0`) does
the constructor complete, and then indeed with the source's count and
timestamp, a fresh unshared (absent) buffer, and `bUpdating = false`. -/
theorem c9_copy_ctor_bug :
    BufferThreaded.copyCtor
        { bUpdating := false, data := some [0], numItems := 1, tStamp := 5 } =
      none ∧
    BufferThreaded.copyCtor
        { bUpdating := true, data := none, numItems := 0, tStamp := 5 } =
      some { bUpdating := false, data := none, numItems := 0, tStamp := 5 } := by
  exact ⟨rfl, rfl⟩

end Gofirst
